import Mathlib

/-!
Verification of the NYC Airbnb dashboard (src/app.py) against its
natural-language specification.

The whole logic of the dashboard is the Dash callback `update_all`, a pure
function from a filter tuple (neighbourhood group, room type, price
ceiling) and the static dataframe `df` to six outputs: three plotly
figures (histogram, violin, map) and three KPI strings.  We embed it
shallowly:

* a dataframe row becomes a `Listing`; the dataframe a `List Listing`;
* pandas boolean-mask filtering becomes `List.filter`;
* numeric columns are rationals (`Rat`), the exact idealisation of the
  float arithmetic the spec itself only requires "within floating-point
  tolerance";
* NaN-able coordinate columns become `Option Rat`; `dropna` becomes a
  filter on `Option.isSome`;
* a plotly figure is abstracted to the fields the spec talks about: the
  backing rows, the fixed axis ranges, axis visibility, the title, and
  the histogram bin count.  Styling-only attributes (colors, margins,
  hover templates) are out of scope, as the spec declares the chart
  library a black box;
* the Python f-string formats `f"{x:,.0f}"`, `f"{n:,}"` and
  `f"{x:.1f}"` become executable formatting functions over `Rat`/`Nat`
  with round-half-to-even, the tie-breaking rule of the float
  formatting in Python.
-/

/-- A row of the cleaned Airbnb dataframe (columns used by `update_all`).
Coordinates are optional because the map drops NaN coordinates. -/
structure Listing where
  price : Rat
  neighbourhood_group : String
  room_type : String
  minimum_nights : Rat
  number_of_reviews : Nat
  latitude : Option Rat
  longitude : Option Rat
  neighbourhood : String
deriving Repr, DecidableEq

/-- Constant `PRICE_AXIS_MAX = 600`, src/app.py line 9: the fixed y-axis max for
the violin/box price chart. -/
def PRICE_AXIS_MAX : Rat := 600

/-- The price ceiling dropdown value: `none` models the string "none"
("No limit"), `some c` a numeric ceiling. -/
abbrev Ceiling := Option Rat

/-- The three sequential pandas mask filters at the top of `update_all`
(src/app.py lines 348-357): region equality when not "All", room-type
equality when not "All", `price <= float(price_ceiling)` when the
ceiling is not "none". -/
def filteredData (df : List Listing) (neigh_group room_type : String)
    (price_ceiling : Ceiling) : List Listing :=
  let data := if neigh_group ≠ "All" then
      df.filter (fun r => r.neighbourhood_group == neigh_group)
    else df
  let data := if room_type ≠ "All" then
      data.filter (fun r => r.room_type == room_type)
    else data
  match price_ceiling with
  | some c => data.filter (fun r => decide (r.price ≤ c))
  | none => data

/-- The histogram x-axis cap: `base_cap = 800`, lowered to
`min(800, float(price_ceiling))` when a ceiling is selected
(src/app.py lines 378-380). -/
def histCap : Ceiling → Rat
  | some c => min 800 c
  | none => 800

/-- Arithmetic mean of a list of rationals (`Series.mean`); division by
zero never occurs because the callers guard on non-emptiness. -/
def mean (xs : List Rat) : Rat := xs.sum / (xs.length : Rat)

/-- Round a rational to the nearest integer, ties to even — the
rounding that the fixed-point float formatting of Python performs. -/
def roundHalfEven (q : Rat) : Int :=
  let f := q.floor
  let frac := q - (f : Rat)
  if frac < 1/2 then f
  else if 1/2 < frac then f + 1
  else if f % 2 = 0 then f else f + 1

/-- Group a least-significant-first digit list into blocks of three,
for the thousands separator. -/
def chunk3 : List Char → List (List Char)
  | [] => []
  | [a] => [[a]]
  | [a, b] => [[a, b]]
  | a :: b :: c :: rest => [a, b, c] :: chunk3 rest

/-- Decimal digits of `n`, with a thousands separator every three
digits: the Python format `f"{n:,}"`. -/
def addCommas (n : Nat) : String :=
  let ds := (Nat.toDigits 10 n).reverse
  String.mk (((chunk3 ds).intersperse [',']).flatten.reverse)

/-- Format `f"${avg_price:,.0f}"` (src/app.py line 373): dollar sign, value
rounded to the nearest whole unit, thousands separators. -/
def fmtPrice (q : Rat) : String :=
  let n := roundHalfEven q
  "$" ++ (if n < 0 then "-" else "") ++ addCommas n.natAbs

/-- Format `f"{num_listings:,}"` (src/app.py line 374). -/
def fmtCount (n : Nat) : String := addCommas n

/-- Format `f"{avg_min_nights:.1f} nights"` (src/app.py line 375): one decimal
place, ties to even. -/
def fmtMinNights (q : Rat) : String :=
  let t := roundHalfEven (q * 10)
  (if t < 0 then "-" else "") ++
    toString (t.natAbs / 10) ++ "." ++ toString (t.natAbs % 10) ++ " nights"

/-- The spec-relevant abstraction of a plotly figure: its backing data
rows, fixed axis ranges, axis visibility, title, and bin count. -/
structure Figure where
  rows : List Listing
  xaxis_range : Option (Rat × Rat)
  yaxis_range : Option (Rat × Rat)
  xaxis_visible : Bool
  yaxis_visible : Bool
  title : Option String
  nbins : Option Nat
deriving Repr, DecidableEq

/-- The placeholder figure returned when the filtered subset is empty
(src/app.py lines 360-366): a bare scatter with title
"No data for selected filters" and both axes hidden. -/
def emptyFig : Figure :=
  { rows := []
    xaxis_range := none
    yaxis_range := none
    xaxis_visible := false
    yaxis_visible := false
    title := some "No data for selected filters"
    nbins := none }

/-- The six outputs of the callback, in the declared Output order. -/
structure Outputs where
  price_hist : Figure
  price_violin : Figure
  listing_map : Figure
  kpi_avg_price : String
  kpi_num_listings : String
  kpi_avg_min_nights : String
deriving Repr, DecidableEq

/-- The callback `update_all` (src/app.py lines 347-507).  Filters the
static dataframe by the three selections; on an empty result returns
the placeholder sentinel; otherwise computes the three KPIs, the
histogram over the rows at or below the x-axis cap, the violin over
the full subset with the fixed 0..600 y-range, and the map over the
rows with non-null coordinates. -/
def update_all (df : List Listing) (neigh_group room_type : String)
    (price_ceiling : Ceiling) : Outputs :=
  let data := filteredData df neigh_group room_type price_ceiling
  if data.isEmpty then
    { price_hist := emptyFig
      price_violin := emptyFig
      listing_map := emptyFig
      kpi_avg_price := "N/A"
      kpi_num_listings := "N/A"
      kpi_avg_min_nights := "N/A" }
  else
    let avg_price := mean (data.map Listing.price)
    let num_listings := data.length
    let avg_min_nights := mean (data.map Listing.minimum_nights)
    let base_cap := histCap price_ceiling
    let hist_data := data.filter (fun r => decide (r.price ≤ base_cap))
    let map_data := data.filter (fun r => r.latitude.isSome && r.longitude.isSome)
    { price_hist :=
        { rows := hist_data
          xaxis_range := some (0, base_cap)
          yaxis_range := none
          xaxis_visible := true
          yaxis_visible := true
          title := none
          nbins := some 50 }
      price_violin :=
        { rows := data
          xaxis_range := none
          yaxis_range := some (0, PRICE_AXIS_MAX)
          xaxis_visible := true
          yaxis_visible := true
          title := none
          nbins := none }
      listing_map :=
        { rows := map_data
          xaxis_range := none
          yaxis_range := none
          xaxis_visible := true
          yaxis_visible := true
          title := none
          nbins := none }
      kpi_avg_price := fmtPrice avg_price
      kpi_num_listings := fmtCount num_listings
      kpi_avg_min_nights := fmtMinNights avg_min_nights }

/-- Initial value of the `global_neigh_group` dropdown
(src/app.py line 135): `value="All"`. -/
def global_neigh_group_default : String := "All"

/-- Initial value of the `global_room_type` dropdown
(src/app.py line 150): `value="All"`. -/
def global_room_type_default : String := "All"

/-- Initial value of the `global_price_ceiling` dropdown
(src/app.py line 166): `value=800`, i.e. the $800 ceiling, not the
"No limit" option. -/
def global_price_ceiling_default : Ceiling := some 800

/-- The description the spec gives of the filter, as a single conjunctive
predicate over one row: region equality when the selector is not
"All", room-type equality when not "All", price at or below the
ceiling when one is set.  Used to compare the sequential pandas
filtering against the order-independent conjunction of the spec. -/
def keepListing (neigh_group room_type : String) (price_ceiling : Ceiling)
    (r : Listing) : Bool :=
  (neigh_group == "All" || r.neighbourhood_group == neigh_group) &&
  (room_type == "All" || r.room_type == room_type) &&
  (match price_ceiling with
   | some c => decide (r.price ≤ c)
   | none => true)

/-- The region filter step alone (src/app.py lines 350-351). -/
def applyNeigh (neigh_group : String) (l : List Listing) : List Listing :=
  if neigh_group ≠ "All" then
    l.filter (fun r => r.neighbourhood_group == neigh_group)
  else l

/-- The room-type filter step alone (src/app.py lines 353-354). -/
def applyRoom (room_type : String) (l : List Listing) : List Listing :=
  if room_type ≠ "All" then
    l.filter (fun r => r.room_type == room_type)
  else l

/-- The price-ceiling filter step alone (src/app.py lines 356-357). -/
def applyCeil (price_ceiling : Ceiling) (l : List Listing) : List Listing :=
  match price_ceiling with
  | some c => l.filter (fun r => decide (r.price ≤ c))
  | none => l

/-- A concrete listing priced above both the default ceiling (800) and
the histogram cap, for counterexamples and witnesses. -/
def exRow900 : Listing :=
  ⟨900, "Manhattan", "Entire home/apt", 2, 3, some 40, some (-74), "Midtown"⟩

/-- A concrete cheap listing with coordinates. -/
def exRow100 : Listing :=
  ⟨100, "Brooklyn", "Private room", 3, 5, some 41, some (-73), "Greenpoint"⟩

/-- A concrete listing with a missing latitude (NaN coordinate). -/
def exRowNoCoord : Listing :=
  ⟨150, "Queens", "Shared room", 1, 2, none, some (-73), "Astoria"⟩

/-- A concrete three-row dataframe used by witnesses. -/
def exListings : List Listing := [exRow100, exRow900, exRowNoCoord]

lemma applyNeigh_eq_filter (ng : String) (l : List Listing) :
    applyNeigh ng l
      = l.filter (fun r => ng == "All" || r.neighbourhood_group == ng) := by
  by_cases h : ng = "All"
  · simp [applyNeigh, h]
  · have hb : (ng == "All") = false := beq_eq_false_iff_ne.mpr h
    simp [applyNeigh, h, hb]

lemma applyRoom_eq_filter (rt : String) (l : List Listing) :
    applyRoom rt l = l.filter (fun r => rt == "All" || r.room_type == rt) := by
  by_cases h : rt = "All"
  · simp [applyRoom, h]
  · have hb : (rt == "All") = false := beq_eq_false_iff_ne.mpr h
    simp [applyRoom, h, hb]

lemma applyCeil_eq_filter (pc : Ceiling) (l : List Listing) :
    applyCeil pc l
      = l.filter (fun r =>
          match pc with | some c => decide (r.price ≤ c) | none => true) := by
  cases pc <;> simp [applyCeil]

lemma filteredData_eq_steps (df : List Listing) (ng rt : String) (pc : Ceiling) :
    filteredData df ng rt pc = applyCeil pc (applyRoom rt (applyNeigh ng df)) := by
  cases pc <;> rfl

lemma filteredData_eq_keep (df : List Listing) (ng rt : String) (pc : Ceiling) :
    filteredData df ng rt pc = df.filter (keepListing ng rt pc) := by
  rw [filteredData_eq_steps, applyNeigh_eq_filter, applyRoom_eq_filter,
    applyCeil_eq_filter, List.filter_filter, List.filter_filter]
  refine List.filter_congr fun a _ => ?_
  simp only [keepListing]
  cases hn : (ng == "All" || a.neighbourhood_group == ng) <;>
    cases hr : (rt == "All" || a.room_type == rt) <;>
      cases pc <;> simp

/-- C7: the filtered subset equals the rows of the dataframe
satisfying the conjunction of the three predicates (region equality
when not "All", room-type equality when not "All", price at or below
the ceiling when one is set), and applying the three filter steps in
any of the six orders yields that same subset. -/
theorem C7_filter_conjunction (df : List Listing) (ng rt : String) (pc : Ceiling) :
    filteredData df ng rt pc = df.filter (keepListing ng rt pc) ∧
    applyCeil pc (applyRoom rt (applyNeigh ng df)) = df.filter (keepListing ng rt pc) ∧
    applyCeil pc (applyNeigh ng (applyRoom rt df)) = df.filter (keepListing ng rt pc) ∧
    applyRoom rt (applyCeil pc (applyNeigh ng df)) = df.filter (keepListing ng rt pc) ∧
    applyRoom rt (applyNeigh ng (applyCeil pc df)) = df.filter (keepListing ng rt pc) ∧
    applyNeigh ng (applyRoom rt (applyCeil pc df)) = df.filter (keepListing ng rt pc) ∧
    applyNeigh ng (applyCeil pc (applyRoom rt df)) = df.filter (keepListing ng rt pc) := by
  refine ⟨filteredData_eq_keep df ng rt pc,
    (filteredData_eq_steps df ng rt pc).symm.trans (filteredData_eq_keep df ng rt pc),
    ?_, ?_, ?_, ?_, ?_⟩ <;>
  · rw [applyNeigh_eq_filter, applyRoom_eq_filter, applyCeil_eq_filter,
      List.filter_filter, List.filter_filter]
    refine List.filter_congr fun a _ => ?_
    cases pc <;>
      simp [keepListing, Bool.and_assoc, Bool.and_comm, Bool.and_left_comm]

/-- C4 counterexample: the claim that all three filters default to
"All"/"unbounded" is false.  The price-ceiling dropdown is declared
with `value=800` (src/app.py line 166), not the "No limit" option, so
the default view applies a ceiling: on a one-row dataframe whose only
listing costs 900, the default filter tuple yields the empty subset,
not the full dataset. -/
theorem C4_counterexample_default_ceiling :
    global_price_ceiling_default ≠ (none : Ceiling) ∧
    ([exRow900] : List Listing) ≠ [] ∧
    filteredData [exRow900] global_neigh_group_default global_room_type_default
      global_price_ceiling_default = [] := by
  refine ⟨by decide, by decide, ?_⟩
  decide

/-- C4 amended: at initial load the region and room-type filters
default to "All", but the price ceiling defaults to 800, so the
default view is the dataframe filtered to price at most 800 (the full
dataset only when no listing costs more than 800). -/
theorem C4_amended_defaults (df : List Listing) :
    global_neigh_group_default = "All" ∧
    global_room_type_default = "All" ∧
    global_price_ceiling_default = some 800 ∧
    filteredData df global_neigh_group_default global_room_type_default
        global_price_ceiling_default
      = df.filter (fun r => decide (r.price ≤ 800)) := by
  refine ⟨rfl, rfl, rfl, ?_⟩
  simp [filteredData, global_neigh_group_default, global_room_type_default,
    global_price_ceiling_default]

/-- C1: for every filter tuple, the filtered subset is empty exactly
when `update_all` returns the placeholder sentinel: all three figures
are the hidden-axes "No data for selected filters" figure and all
three KPI strings are "N/A".  `update_all` is a total Lean function,
so no error is raised in this case. -/
theorem C1_empty_iff_placeholder (df : List Listing) (ng rt : String) (pc : Ceiling) :
    filteredData df ng rt pc = [] ↔
      ((update_all df ng rt pc).price_hist = emptyFig ∧
       (update_all df ng rt pc).price_violin = emptyFig ∧
       (update_all df ng rt pc).listing_map = emptyFig ∧
       (update_all df ng rt pc).kpi_avg_price = "N/A" ∧
       (update_all df ng rt pc).kpi_num_listings = "N/A" ∧
       (update_all df ng rt pc).kpi_avg_min_nights = "N/A") := by
  by_cases h : filteredData df ng rt pc = []
  · simp [update_all, h]
  · have hne : (filteredData df ng rt pc).isEmpty = false := by
      simpa [List.isEmpty_iff] using h
    constructor
    · intro h1
      exact absurd h1 h
    · rintro ⟨hh, -, -, -, -, -⟩
      have hvis : (update_all df ng rt pc).price_hist.xaxis_visible = true := by
        simp [update_all, hne]
      rw [hh] at hvis
      simp [emptyFig] at hvis

/-- C2: for every filter tuple with a non-empty filtered subset, the
average-price KPI is the arithmetic mean (sum over count) of the price
column of the filtered subset, displayed by `fmtPrice` (rounded to the
nearest whole unit, thousands separators); the listing-count KPI is
the row count of the filtered subset; the average-minimum-nights KPI
is the mean of the minimum-nights column displayed by `fmtMinNights`
to one decimal place. -/
theorem C2_kpi_formulas (df : List Listing) (ng rt : String) (pc : Ceiling)
    (h : filteredData df ng rt pc ≠ []) :
    (update_all df ng rt pc).kpi_avg_price
      = fmtPrice (((filteredData df ng rt pc).map Listing.price).sum
          / ((filteredData df ng rt pc).length : Rat)) ∧
    (update_all df ng rt pc).kpi_num_listings
      = fmtCount (filteredData df ng rt pc).length ∧
    (update_all df ng rt pc).kpi_avg_min_nights
      = fmtMinNights (((filteredData df ng rt pc).map Listing.minimum_nights).sum
          / ((filteredData df ng rt pc).length : Rat)) := by
  have hne : (filteredData df ng rt pc).isEmpty = false := by
    simpa [List.isEmpty_iff] using h
  refine ⟨?_, ?_, ?_⟩ <;> simp [update_all, hne, mean]

/-- Witness for `C2_kpi_formulas` on a concrete three-row dataframe. -/
theorem C2_kpi_formulas_witness :
    filteredData exListings "All" "All" none ≠ [] ∧
    ((update_all exListings "All" "All" none).kpi_avg_price
        = fmtPrice (((filteredData exListings "All" "All" none).map Listing.price).sum
            / ((filteredData exListings "All" "All" none).length : Rat)) ∧
     (update_all exListings "All" "All" none).kpi_num_listings
        = fmtCount (filteredData exListings "All" "All" none).length ∧
     (update_all exListings "All" "All" none).kpi_avg_min_nights
        = fmtMinNights (((filteredData exListings "All" "All" none).map
              Listing.minimum_nights).sum
            / ((filteredData exListings "All" "All" none).length : Rat))) :=
  ⟨by decide, C2_kpi_formulas exListings "All" "All" none (by decide)⟩

/-- C3: for every filter tuple with a non-empty filtered subset, the
histogram x-axis range is 0 to `histCap`, which is `min 800 c` when a
ceiling `c` is selected and 800 when the ceiling is "none"; and in the
scenario region "All", room type "All", ceiling 200, every row of the
subset has price at most 200 and the x-axis maximum is 200. -/
theorem C3_hist_xaxis_cap (df : List Listing) (ng rt : String) (pc : Ceiling)
    (h : filteredData df ng rt pc ≠ []) :
    (update_all df ng rt pc).price_hist.xaxis_range = some (0, histCap pc) ∧
    histCap none = 800 ∧
    (∀ c : Rat, histCap (some c) = min 800 c) ∧
    (∀ r ∈ filteredData df "All" "All" (some 200), r.price ≤ 200) ∧
    (filteredData df "All" "All" (some 200) ≠ [] →
      (update_all df "All" "All" (some 200)).price_hist.xaxis_range
        = some (0, 200)) := by
  have hne : (filteredData df ng rt pc).isEmpty = false := by
    simpa [List.isEmpty_iff] using h
  refine ⟨by simp [update_all, hne], rfl, fun c => rfl, ?_, ?_⟩
  · intro r hr
    simp [filteredData, List.mem_filter] at hr
    exact hr.2
  · intro h2
    have hne2 : (filteredData df "All" "All" (some 200)).isEmpty = false := by
      simpa [List.isEmpty_iff] using h2
    have hcap : histCap (some 200) = 200 := by
      simp only [histCap]
      rw [min_eq_right]
      norm_num
    simp [update_all, hne2, hcap]

/-- Witness for `C3_hist_xaxis_cap` on a concrete three-row dataframe
with the ceiling set to 200. -/
theorem C3_hist_xaxis_cap_witness :
    filteredData exListings "All" "All" (some 200) ≠ [] ∧
    ((update_all exListings "All" "All" (some 200)).price_hist.xaxis_range
        = some (0, histCap (some 200)) ∧
     histCap none = 800 ∧
     (∀ c : Rat, histCap (some c) = min 800 c) ∧
     (∀ r ∈ filteredData exListings "All" "All" (some 200), r.price ≤ 200) ∧
     (filteredData exListings "All" "All" (some 200) ≠ [] →
       (update_all exListings "All" "All" (some 200)).price_hist.xaxis_range
         = some (0, 200))) :=
  ⟨by decide, C3_hist_xaxis_cap exListings "All" "All" (some 200) (by decide)⟩

/-- C5: for every filter tuple with a non-empty filtered subset, the
y-axis range of the violin figure is 0 to exactly 600 currency units
(`PRICE_AXIS_MAX`), independent of region, room type, and ceiling. -/
theorem C5_violin_yaxis (df : List Listing) (ng rt : String) (pc : Ceiling)
    (h : filteredData df ng rt pc ≠ []) :
    PRICE_AXIS_MAX = 600 ∧
    (update_all df ng rt pc).price_violin.yaxis_range = some (0, 600) := by
  have hne : (filteredData df ng rt pc).isEmpty = false := by
    simpa [List.isEmpty_iff] using h
  exact ⟨rfl, by simp [update_all, hne, PRICE_AXIS_MAX]⟩

/-- Witness for `C5_violin_yaxis` on a concrete three-row dataframe
with a restrictive filter tuple. -/
theorem C5_violin_yaxis_witness :
    filteredData exListings "Brooklyn" "Private room" (some 400) ≠ [] ∧
    (PRICE_AXIS_MAX = 600 ∧
     (update_all exListings "Brooklyn" "Private room"
         (some 400)).price_violin.yaxis_range = some (0, 600)) :=
  ⟨by decide,
    C5_violin_yaxis exListings "Brooklyn" "Private room" (some 400) (by decide)⟩

/-- C6: for every filter tuple with a non-empty filtered subset, the
map figure contains exactly the filtered rows whose latitude and
longitude are both non-null, its point count is at most the filtered
row count, and rows with missing coordinates are excluded only from
the map: the violin still holds the full subset, a capped-price row
with missing coordinates still appears in the histogram, and the
listing-count KPI still counts the full subset. -/
theorem C6_map_rows (df : List Listing) (ng rt : String) (pc : Ceiling)
    (h : filteredData df ng rt pc ≠ []) :
    (update_all df ng rt pc).listing_map.rows
      = (filteredData df ng rt pc).filter
          (fun r => r.latitude.isSome && r.longitude.isSome) ∧
    (update_all df ng rt pc).listing_map.rows.length
      ≤ (filteredData df ng rt pc).length ∧
    (update_all df ng rt pc).price_violin.rows = filteredData df ng rt pc ∧
    (∀ r ∈ filteredData df ng rt pc, r.price ≤ histCap pc →
        r ∈ (update_all df ng rt pc).price_hist.rows) ∧
    (update_all df ng rt pc).kpi_num_listings
      = fmtCount (filteredData df ng rt pc).length := by
  have hne : (filteredData df ng rt pc).isEmpty = false := by
    simpa [List.isEmpty_iff] using h
  have hmap : (update_all df ng rt pc).listing_map.rows
      = (filteredData df ng rt pc).filter
          (fun r => r.latitude.isSome && r.longitude.isSome) := by
    simp [update_all, hne]
  refine ⟨hmap, ?_, by simp [update_all, hne], ?_, by simp [update_all, hne]⟩
  · rw [hmap]
    exact List.length_filter_le _ _
  · intro r hr hp
    simp [update_all, hne, List.mem_filter]
    exact ⟨hr, hp⟩

/-- Witness for C6_map_rows: on the concrete dataframe, the row with a
missing latitude is dropped from the map but kept elsewhere. -/
theorem C6_map_rows_witness :
    filteredData exListings "All" "All" none ≠ [] ∧
    ((update_all exListings "All" "All" none).listing_map.rows
        = (filteredData exListings "All" "All" none).filter
            (fun r => r.latitude.isSome && r.longitude.isSome) ∧
     (update_all exListings "All" "All" none).listing_map.rows.length
        ≤ (filteredData exListings "All" "All" none).length ∧
     (update_all exListings "All" "All" none).price_violin.rows
        = filteredData exListings "All" "All" none ∧
     (∀ r ∈ filteredData exListings "All" "All" none, r.price ≤ histCap none →
         r ∈ (update_all exListings "All" "All" none).price_hist.rows) ∧
     (update_all exListings "All" "All" none).kpi_num_listings
        = fmtCount (filteredData exListings "All" "All" none).length) :=
  ⟨by decide, C6_map_rows exListings "All" "All" none (by decide)⟩

/-- C8: the callback is deterministic and stateless.  In the embedding
`update_all` is a pure function of the dataframe and the three filter
selections and reads no other state, so two invocations on equal
inputs return equal six-tuples of outputs. -/
theorem C8_deterministic (df1 df2 : List Listing) (ng1 ng2 rt1 rt2 : String)
    (pc1 pc2 : Ceiling) (h1 : df1 = df2) (h2 : ng1 = ng2) (h3 : rt1 = rt2)
    (h4 : pc1 = pc2) :
    update_all df1 ng1 rt1 pc1 = update_all df2 ng2 rt2 pc2 := by
  rw [h1, h2, h3, h4]

/-- Witness for C8_deterministic at a concrete input. -/
theorem C8_deterministic_witness :
    exListings = exListings ∧ ("Manhattan" : String) = "Manhattan" ∧
    ("All" : String) = "All" ∧ (some 400 : Ceiling) = some 400 ∧
    update_all exListings "Manhattan" "All" (some 400)
      = update_all exListings "Manhattan" "All" (some 400) :=
  ⟨rfl, rfl, rfl, rfl,
    C8_deterministic exListings exListings "Manhattan" "Manhattan" "All" "All"
      (some 400) (some 400) rfl rfl rfl rfl⟩

/-- C9: the histogram is built only from the filtered rows whose price
is at most the cap `histCap` (`min 800 c`, or 800 for "none"); with no
ceiling, every filtered row with price above 800 is still counted by
the listing-count KPI but is absent from the histogram rows; and on a
concrete dataframe holding a 900-priced listing the histogram row
count is strictly below the listing count. -/
theorem C9_hist_rows_capped (df : List Listing) (ng rt : String) (pc : Ceiling)
    (h : filteredData df ng rt pc ≠ []) :
    (update_all df ng rt pc).price_hist.rows
      = (filteredData df ng rt pc).filter
          (fun r => decide (r.price ≤ histCap pc)) ∧
    (filteredData df ng rt none ≠ [] →
      ((update_all df ng rt none).kpi_num_listings
          = fmtCount (filteredData df ng rt none).length ∧
       ∀ r ∈ filteredData df ng rt none, 800 < r.price →
          r ∉ (update_all df ng rt none).price_hist.rows)) ∧
    (update_all exListings "All" "All" none).price_hist.rows.length
      < (filteredData exListings "All" "All" none).length := by
  have hne : (filteredData df ng rt pc).isEmpty = false := by
    simpa [List.isEmpty_iff] using h
  refine ⟨by simp [update_all, hne], ?_, by decide⟩
  intro h2
  have hne2 : (filteredData df ng rt none).isEmpty = false := by
    simpa [List.isEmpty_iff] using h2
  refine ⟨by simp [update_all, hne2], ?_⟩
  intro r hr hp hmem
  have hrows : (update_all df ng rt none).price_hist.rows
      = (filteredData df ng rt none).filter
          (fun s => decide (s.price ≤ histCap none)) := by
    simp [update_all, hne2]
  rw [hrows] at hmem
  have hle : r.price ≤ 800 := by
    have hd := (List.mem_filter.mp hmem).2
    simpa [histCap] using hd
  exact absurd hp (not_lt.mpr hle)

/-- Witness for C9_hist_rows_capped on the concrete dataframe with no
price ceiling. -/
theorem C9_hist_rows_capped_witness :
    filteredData exListings "All" "All" none ≠ [] ∧
    ((update_all exListings "All" "All" none).price_hist.rows
        = (filteredData exListings "All" "All" none).filter
            (fun r => decide (r.price ≤ histCap none)) ∧
     (filteredData exListings "All" "All" none ≠ [] →
       ((update_all exListings "All" "All" none).kpi_num_listings
           = fmtCount (filteredData exListings "All" "All" none).length ∧
        ∀ r ∈ filteredData exListings "All" "All" none, 800 < r.price →
           r ∉ (update_all exListings "All" "All" none).price_hist.rows)) ∧
     (update_all exListings "All" "All" none).price_hist.rows.length
        < (filteredData exListings "All" "All" none).length) :=
  ⟨by decide, C9_hist_rows_capped exListings "All" "All" none (by decide)⟩

/-- C10: the price-ceiling filter is monotone.  With region and room
type fixed, for ceilings c1 at most c2 every row passing the c1 filter
passes the c2 filter, every row passing a numeric ceiling passes with
no ceiling, and the row counts are ordered the same way: raising the
ceiling never decreases the listing count. -/
theorem C10_ceiling_monotone (df : List Listing) (ng rt : String) (c1 c2 : Rat)
    (h : c1 ≤ c2) :
    (∀ r ∈ filteredData df ng rt (some c1), r ∈ filteredData df ng rt (some c2)) ∧
    (∀ r ∈ filteredData df ng rt (some c2), r ∈ filteredData df ng rt none) ∧
    (filteredData df ng rt (some c1)).length
      ≤ (filteredData df ng rt (some c2)).length ∧
    (filteredData df ng rt (some c2)).length
      ≤ (filteredData df ng rt none).length := by
  have e1 : ∀ c : Rat, filteredData df ng rt (some c)
      = (filteredData df ng rt none).filter (fun r => decide (r.price ≤ c)) := by
    intro c
    rw [filteredData_eq_steps, filteredData_eq_steps]
    rfl
  refine ⟨?_, ?_, ?_, ?_⟩
  · intro r hr
    rw [e1] at hr ⊢
    rcases List.mem_filter.mp hr with ⟨hm, hp⟩
    exact List.mem_filter.mpr
      ⟨hm, decide_eq_true (le_trans (of_decide_eq_true hp) h)⟩
  · intro r hr
    rw [e1] at hr
    exact (List.mem_filter.mp hr).1
  · rw [e1, e1]
    exact (List.monotone_filter_right _ fun a ha =>
      decide_eq_true (le_trans (of_decide_eq_true ha) h)).length_le
  · rw [e1]
    exact List.length_filter_le _ _

/-- Witness for C10_ceiling_monotone at ceilings 150 and 800 on the
concrete dataframe. -/
theorem C10_ceiling_monotone_witness :
    (150 : Rat) ≤ 800 ∧
    ((∀ r ∈ filteredData exListings "All" "All" (some 150),
        r ∈ filteredData exListings "All" "All" (some 800)) ∧
     (∀ r ∈ filteredData exListings "All" "All" (some 800),
        r ∈ filteredData exListings "All" "All" none) ∧
     (filteredData exListings "All" "All" (some 150)).length
        ≤ (filteredData exListings "All" "All" (some 800)).length ∧
     (filteredData exListings "All" "All" (some 800)).length
        ≤ (filteredData exListings "All" "All" none).length) :=
  ⟨by decide, C10_ceiling_monotone exListings "All" "All" 150 800 (by decide)⟩
